import Mathlib

/-!
Shallow embedding of the MathEngine repository (namespace `Math` in the C++
source): the 2x2 / 3x3 / 4x4 matrix types (`src/Math/Matrix2D.h`,
`src/Math/Matrix3D.h`, `src/Math/Matrix4D.h`), the power-iteration eigenvalue
solver attached to the 3x3 type, and the hierarchical `Transform2D`
(`src/Math/Transform2D.cpp`).

Modelling conventions:
* C++ `float` arithmetic is embedded as exact arithmetic in a linear ordered
  field; the pure matrix-kernel operations are stated over an arbitrary
  `LinearOrderedField` (instantiated at `ℚ` in concrete witnesses, so that
  they evaluate), while the operations that call `std::sqrt`, `std::cos` or
  `std::sin` (vector length, `Transform2D::UpdateMatrix`, the eigenvalue
  solver) are embedded over `ℝ`.
* C++ functions that `throw` are embedded with `Except MathError`; functions
  that cannot throw keep a plain return type.
* Mutation of `*this` is embedded by returning the new value of the object.
-/

namespace Math

/-- Error taxonomy of the source (each constructor corresponds to one family
of `throw` statements: `std::runtime_error` on singular inversion, the
`std::invalid_argument("Division by zero")` of `Matrix4D::operator/`,
the two `std::runtime_error`s of `Matrix3D::CalculateEigenvalues`, and the
`std::out_of_range` of the indexed accessors). -/
inductive MathError : Type where
  | singularMatrix : MathError
  | divisionByZero : MathError
  | notSymmetric : MathError
  | convergenceFailure : MathError
  | indexOutOfRange : MathError
deriving DecidableEq, Repr

/-- Returns `true` exactly on `Except.ok` values. -/
def exceptIsOk {ε σ : Type} : Except ε σ → Bool
  | Except.ok _ => true
  | Except.error _ => false

/-- Epsilon used throughout the source (`Constants::EPSILON = 1e-6f`,
`src/Math/Constants.h`). -/
def Constants.EPSILON {K : Type} [DivisionRing K] : K := 1 / 1000000

/-- Pi constant of the source (`Constants::PI`, `src/Math/Constants.h`,
the decimal literal `3.14159265358979323846f` read exactly). -/
def Constants.PI {K : Type} [DivisionRing K] : K :=
  314159265358979323846 / 100000000000000000000

/-- Tau constant of the source (`Constants::TAU = 2.0f * PI`). -/
def Constants.TAU {K : Type} [DivisionRing K] : K := 2 * Constants.PI

section VectorTypes

variable {K : Type} [LinearOrderedField K]

/-- The `Math::Vector2D` struct of `src/Math/Vector2D.h`. -/
structure Vector2D (K : Type) where
  x : K
  y : K
deriving DecidableEq, Repr

/-- Componentwise sum, `Vector2D::operator+`. -/
def Vector2D.add (a b : Vector2D K) : Vector2D K := ⟨a.x + b.x, a.y + b.y⟩

/-- Componentwise difference, `Vector2D::operator-`. -/
def Vector2D.sub (a b : Vector2D K) : Vector2D K := ⟨a.x - b.x, a.y - b.y⟩

/-- Scalar product, `Vector2D::operator*(float)`. -/
def Vector2D.smul (a : Vector2D K) (s : K) : Vector2D K := ⟨a.x * s, a.y * s⟩

/-- The `Math::Vector3D` struct of `src/Math/Vector3D.h`. -/
structure Vector3D (K : Type) where
  x : K
  y : K
  z : K
deriving DecidableEq, Repr

/-- Componentwise sum, `Vector3D::operator+`. -/
def Vector3D.add (a b : Vector3D K) : Vector3D K :=
  ⟨a.x + b.x, a.y + b.y, a.z + b.z⟩

/-- Componentwise difference, `Vector3D::operator-`. -/
def Vector3D.sub (a b : Vector3D K) : Vector3D K :=
  ⟨a.x - b.x, a.y - b.y, a.z - b.z⟩

/-- Scalar product, `Vector3D::operator*(float)`. -/
def Vector3D.smul (a : Vector3D K) (s : K) : Vector3D K :=
  ⟨a.x * s, a.y * s, a.z * s⟩

/-- Scalar quotient, `Vector3D::operator/(float)`. -/
def Vector3D.divScalar (a : Vector3D K) (s : K) : Vector3D K :=
  ⟨a.x / s, a.y / s, a.z / s⟩

/-- Dot product, `Vector3D::Dot`. -/
def Vector3D.dot (a b : Vector3D K) : K := a.x * b.x + a.y * b.y + a.z * b.z

end VectorTypes

section Matrix2DDefs

variable {K : Type} [LinearOrderedField K]

/-- The `Math::Matrix2D` struct of `src/Math/Matrix2D.h` (row-major). -/
structure Matrix2D (K : Type) where
  m00 : K
  m01 : K
  m10 : K
  m11 : K
deriving DecidableEq, Repr

/-- Determinant, `Matrix2D::Determinant`: `m00 * m11 - m01 * m10`. -/
def Matrix2D.Determinant (m : Matrix2D K) : K := m.m00 * m.m11 - m.m01 * m.m10

/-- Adjoint, `Matrix2D::Adjoint`. -/
def Matrix2D.Adjoint (m : Matrix2D K) : Matrix2D K :=
  ⟨m.m11, -m.m01, -m.m10, m.m00⟩

/-- Scalar product of a 2x2 matrix, `Matrix2D::operator*(float)`
(`src/Math/Matrix2D.h` lines 66-71). The source declares the return type
`Vector2D` and returns `Vector2D(m00 * Scalar, m01 * Scalar)`: only the two
elements of the first row are scaled and they are returned as a 2-vector,
not as a matrix. This is embedded exactly as written. -/
def Matrix2D.mulScalar (m : Matrix2D K) (s : K) : Vector2D K :=
  ⟨m.m00 * s, m.m01 * s⟩

/-- Scalar quotient, `Matrix2D::operator/(float)`: divides every element by
the scalar with no zero-divisor check of any kind. -/
def Matrix2D.divScalar (m : Matrix2D K) (s : K) : Matrix2D K :=
  ⟨m.m00 / s, m.m01 / s, m.m10 / s, m.m11 / s⟩

/-- The same `Matrix2D::operator/(float)` wrapped in `Except`, for uniform
comparison against the 3x3 and 4x4 scalar divisions: the source operator has
no `throw` statement, so the embedding never produces an error. -/
def Matrix2D.divScalarE (m : Matrix2D K) (s : K) : Except MathError (Matrix2D K) :=
  Except.ok (m.divScalar s)

/-- Inverse, `Matrix2D::Inverse`: fails when `Determinant() == 0` (exact
comparison), otherwise divides the adjoint entries by the determinant
elementwise. -/
def Matrix2D.Inverse (m : Matrix2D K) : Except MathError (Matrix2D K) :=
  if m.Determinant = 0 then Except.error MathError.singularMatrix
  else Except.ok ⟨m.m11 / m.Determinant, -m.m01 / m.Determinant,
                  -m.m10 / m.Determinant, m.m00 / m.Determinant⟩

end Matrix2DDefs

section Matrix3DDefs

variable {K : Type} [LinearOrderedField K]

/-- The `Math::Matrix3D` struct of `src/Math/Matrix3D.h` (row-major). -/
structure Matrix3D (K : Type) where
  m00 : K
  m01 : K
  m02 : K
  m10 : K
  m11 : K
  m12 : K
  m20 : K
  m21 : K
  m22 : K
deriving DecidableEq, Repr

/-- Matrix product, `Matrix3D::operator*(const Matrix3D&)`. -/
def Matrix3D.mul (a b : Matrix3D K) : Matrix3D K :=
  ⟨a.m00 * b.m00 + a.m01 * b.m10 + a.m02 * b.m20,
   a.m00 * b.m01 + a.m01 * b.m11 + a.m02 * b.m21,
   a.m00 * b.m02 + a.m01 * b.m12 + a.m02 * b.m22,
   a.m10 * b.m00 + a.m11 * b.m10 + a.m12 * b.m20,
   a.m10 * b.m01 + a.m11 * b.m11 + a.m12 * b.m21,
   a.m10 * b.m02 + a.m11 * b.m12 + a.m12 * b.m22,
   a.m20 * b.m00 + a.m21 * b.m10 + a.m22 * b.m20,
   a.m20 * b.m01 + a.m21 * b.m11 + a.m22 * b.m21,
   a.m20 * b.m02 + a.m21 * b.m12 + a.m22 * b.m22⟩

/-- Matrix-vector product, `Matrix3D::operator*(const Vector3D&)`. -/
def Matrix3D.mulVec (m : Matrix3D K) (v : Vector3D K) : Vector3D K :=
  ⟨m.m00 * v.x + m.m01 * v.y + m.m02 * v.z,
   m.m10 * v.x + m.m11 * v.y + m.m12 * v.z,
   m.m20 * v.x + m.m21 * v.y + m.m22 * v.z⟩

/-- Scalar product, `Matrix3D::operator*(float)`: every element scaled. -/
def Matrix3D.mulScalar (m : Matrix3D K) (s : K) : Matrix3D K :=
  ⟨m.m00 * s, m.m01 * s, m.m02 * s,
   m.m10 * s, m.m11 * s, m.m12 * s,
   m.m20 * s, m.m21 * s, m.m22 * s⟩

/-- Matrix difference, `Matrix3D::operator-(const Matrix3D&)`. -/
def Matrix3D.sub (a b : Matrix3D K) : Matrix3D K :=
  ⟨a.m00 - b.m00, a.m01 - b.m01, a.m02 - b.m02,
   a.m10 - b.m10, a.m11 - b.m11, a.m12 - b.m12,
   a.m20 - b.m20, a.m21 - b.m21, a.m22 - b.m22⟩

/-- Scalar quotient, `Matrix3D::operator/(float)` (`src/Math/Matrix3D.h`
lines 1113-1123): when `|scalar| < Constants::EPSILON` the operator silently
returns `*this` unchanged, otherwise it divides every element. -/
def Matrix3D.divScalar (m : Matrix3D K) (s : K) : Matrix3D K :=
  if |s| < Constants.EPSILON then m
  else
    ⟨m.m00 / s, m.m01 / s, m.m02 / s,
     m.m10 / s, m.m11 / s, m.m12 / s,
     m.m20 / s, m.m21 / s, m.m22 / s⟩

/-- Determinant, `Matrix3D::Determinant` (first-row cofactor expansion). -/
def Matrix3D.Determinant (m : Matrix3D K) : K :=
  m.m00 * (m.m11 * m.m22 - m.m12 * m.m21) -
  m.m01 * (m.m10 * m.m22 - m.m12 * m.m20) +
  m.m02 * (m.m10 * m.m21 - m.m11 * m.m20)

/-- Trace, `Matrix3D::Trace`. -/
def Matrix3D.Trace (m : Matrix3D K) : K := m.m00 + m.m11 + m.m22

/-- Adjoint, `Matrix3D::Adjoint`: cofactors `c00..c22` as in the source,
arranged transposed with the alternating signs. -/
def Matrix3D.Adjoint (m : Matrix3D K) : Matrix3D K :=
  ⟨m.m11 * m.m22 - m.m12 * m.m21,
   -(m.m01 * m.m22 - m.m02 * m.m21),
   m.m01 * m.m12 - m.m02 * m.m11,
   -(m.m10 * m.m22 - m.m12 * m.m20),
   m.m00 * m.m22 - m.m02 * m.m20,
   -(m.m00 * m.m12 - m.m02 * m.m10),
   m.m10 * m.m21 - m.m11 * m.m20,
   -(m.m00 * m.m21 - m.m01 * m.m20),
   m.m00 * m.m11 - m.m01 * m.m10⟩

/-- Inverse, `Matrix3D::Inverse` (`src/Math/Matrix3D.h` lines 526-534):
fails when `|det| < 1e-6`, otherwise returns `Adjoint() * (1.0f / det)`. -/
def Matrix3D.Inverse (m : Matrix3D K) : Except MathError (Matrix3D K) :=
  if |m.Determinant| < Constants.EPSILON then Except.error MathError.singularMatrix
  else Except.ok (m.Adjoint.mulScalar (1 / m.Determinant))

/-- Symmetry test, `Matrix3D::IsSymmetric` with the default epsilon 1e-6. -/
def Matrix3D.IsSymmetric (m : Matrix3D K) : Prop :=
  |m.m01 - m.m10| < Constants.EPSILON ∧
  |m.m02 - m.m20| < Constants.EPSILON ∧
  |m.m12 - m.m21| < Constants.EPSILON

instance (m : Matrix3D K) : Decidable m.IsSymmetric := by
  unfold Matrix3D.IsSymmetric; infer_instance

/-- The 3x3 zero matrix, `Matrix3D::Zero`. -/
def Matrix3D.zeroMat : Matrix3D K := ⟨0, 0, 0, 0, 0, 0, 0, 0, 0⟩

end Matrix3DDefs

section Matrix4DDefs

variable {K : Type} [LinearOrderedField K]

/-- The `Math::Matrix4D` struct of `src/Math/Matrix4D.h` (row-major). -/
structure Matrix4D (K : Type) where
  m00 : K
  m01 : K
  m02 : K
  m03 : K
  m10 : K
  m11 : K
  m12 : K
  m13 : K
  m20 : K
  m21 : K
  m22 : K
  m23 : K
  m30 : K
  m31 : K
  m32 : K
  m33 : K
deriving DecidableEq, Repr

/-- Element access `Matrix4D::GetElement(row, col)`. The source takes `int`
indices and throws `std::out_of_range` outside `[0,3]`; the in-range
behaviour is embedded with `Fin 4` indices. -/
def Matrix4D.GetElement (m : Matrix4D K) : Fin 4 → Fin 4 → K
  | 0, 0 => m.m00 | 0, 1 => m.m01 | 0, 2 => m.m02 | 0, 3 => m.m03
  | 1, 0 => m.m10 | 1, 1 => m.m11 | 1, 2 => m.m12 | 1, 3 => m.m13
  | 2, 0 => m.m20 | 2, 1 => m.m21 | 2, 2 => m.m22 | 2, 3 => m.m23
  | 3, 0 => m.m30 | 3, 1 => m.m31 | 3, 2 => m.m32 | 3, 3 => m.m33

/-- Scalar product, `Matrix4D::operator*(float)`: every element scaled. -/
def Matrix4D.mulScalar (m : Matrix4D K) (s : K) : Matrix4D K :=
  ⟨m.m00 * s, m.m01 * s, m.m02 * s, m.m03 * s,
   m.m10 * s, m.m11 * s, m.m12 * s, m.m13 * s,
   m.m20 * s, m.m21 * s, m.m22 * s, m.m23 * s,
   m.m30 * s, m.m31 * s, m.m32 * s, m.m33 * s⟩

/-- Scalar quotient, `Matrix4D::operator/(float)` (`src/Math/Matrix4D.h`
lines 453-465): throws `std::invalid_argument("Division by zero")` when the
scalar is exactly zero, otherwise multiplies every element by `1/scalar`. -/
def Matrix4D.divScalar (m : Matrix4D K) (s : K) : Except MathError (Matrix4D K) :=
  if s = 0 then Except.error MathError.divisionByZero
  else Except.ok (m.mulScalar (1 / s))

/-- Determinant, `Matrix4D::Determinant`: the four first-row cofactors
`c00..c03` exactly as written in the source, combined with alternating
signs. -/
def Matrix4D.Determinant (m : Matrix4D K) : K :=
  m.m00 * (m.m11 * (m.m22 * m.m33 - m.m23 * m.m32) -
           m.m12 * (m.m21 * m.m33 - m.m23 * m.m31) +
           m.m13 * (m.m21 * m.m32 - m.m22 * m.m31)) -
  m.m01 * (m.m10 * (m.m22 * m.m33 - m.m23 * m.m32) -
           m.m12 * (m.m20 * m.m33 - m.m23 * m.m30) +
           m.m13 * (m.m20 * m.m32 - m.m22 * m.m30)) +
  m.m02 * (m.m10 * (m.m21 * m.m33 - m.m23 * m.m31) -
           m.m11 * (m.m20 * m.m33 - m.m23 * m.m30) +
           m.m13 * (m.m20 * m.m31 - m.m21 * m.m30)) -
  m.m03 * (m.m10 * (m.m21 * m.m32 - m.m22 * m.m31) -
           m.m11 * (m.m20 * m.m32 - m.m22 * m.m30) +
           m.m12 * (m.m20 * m.m31 - m.m21 * m.m30))

/-- The three row (or column) indices different from `k`, in increasing
order: the index filtering done by the loops of the `minor` lambda inside
`Matrix4D::Adjoint`. -/
def Matrix4D.otherIndices : Fin 4 → Fin 4 × Fin 4 × Fin 4
  | 0 => (1, 2, 3)
  | 1 => (0, 2, 3)
  | 2 => (0, 1, 3)
  | 3 => (0, 1, 2)

/-- The `minor` lambda of `Matrix4D::Adjoint`: determinant of the 3x3
submatrix obtained by deleting row `i0` and column `j0`. -/
def Matrix4D.minor (m : Matrix4D K) (i0 j0 : Fin 4) : K :=
  let r := Matrix4D.otherIndices i0
  let c := Matrix4D.otherIndices j0
  let s : Fin 3 → Fin 3 → K := fun i j =>
    m.GetElement (match i with | 0 => r.1 | 1 => r.2.1 | 2 => r.2.2)
                 (match j with | 0 => c.1 | 1 => c.2.1 | 2 => c.2.2)
  s 0 0 * (s 1 1 * s 2 2 - s 1 2 * s 2 1) -
  s 0 1 * (s 1 0 * s 2 2 - s 1 2 * s 2 0) +
  s 0 2 * (s 1 0 * s 2 1 - s 1 1 * s 2 0)

/-- Cofactor sign of `Matrix4D::Adjoint`: `(-1)^(i+j)` written as the
source's parity test. -/
def Matrix4D.cofSign (i j : Fin 4) : K :=
  if (i.val + j.val) % 2 = 0 then 1 else -1

/-- Adjoint, `Matrix4D::Adjoint`: entry `(j, i)` is `sign(i,j) * minor(i,j)`
(the loop writes each cofactor to the transposed position). -/
def Matrix4D.Adjoint (m : Matrix4D K) : Matrix4D K :=
  ⟨Matrix4D.cofSign 0 0 * m.minor 0 0, Matrix4D.cofSign 1 0 * m.minor 1 0,
   Matrix4D.cofSign 2 0 * m.minor 2 0, Matrix4D.cofSign 3 0 * m.minor 3 0,
   Matrix4D.cofSign 0 1 * m.minor 0 1, Matrix4D.cofSign 1 1 * m.minor 1 1,
   Matrix4D.cofSign 2 1 * m.minor 2 1, Matrix4D.cofSign 3 1 * m.minor 3 1,
   Matrix4D.cofSign 0 2 * m.minor 0 2, Matrix4D.cofSign 1 2 * m.minor 1 2,
   Matrix4D.cofSign 2 2 * m.minor 2 2, Matrix4D.cofSign 3 2 * m.minor 3 2,
   Matrix4D.cofSign 0 3 * m.minor 0 3, Matrix4D.cofSign 1 3 * m.minor 1 3,
   Matrix4D.cofSign 2 3 * m.minor 2 3, Matrix4D.cofSign 3 3 * m.minor 3 3⟩

/-- Inverse, `Matrix4D::Inverse` (`src/Math/Matrix4D.h` lines 629-636):
fails when `|det| < Constants::EPSILON`, otherwise returns
`Adjoint() / det` through the checked scalar division. -/
def Matrix4D.Inverse (m : Matrix4D K) : Except MathError (Matrix4D K) :=
  if |m.Determinant| < Constants.EPSILON then Except.error MathError.singularMatrix
  else m.Adjoint.divScalar m.Determinant

/-- Homogeneous coordinate computed by `Matrix4D::TransformPoint`:
`w = m30*x + m31*y + m32*z + m33`. -/
def Matrix4D.homogW (m : Matrix4D K) (v : Vector3D K) : K :=
  m.m30 * v.x + m.m31 * v.y + m.m32 * v.z + m.m33

/-- Point transform, `Matrix4D::TransformPoint` (`src/Math/Matrix4D.h`
lines 315-327): returns the zero vector when `w == 0` (exact comparison),
otherwise multiplies each transformed component by `1/w`. -/
def Matrix4D.TransformPoint (m : Matrix4D K) (v : Vector3D K) : Vector3D K :=
  if m.homogW v = 0 then ⟨0, 0, 0⟩
  else
    ⟨(m.m00 * v.x + m.m01 * v.y + m.m02 * v.z + m.m03) * (1 / m.homogW v),
     (m.m10 * v.x + m.m11 * v.y + m.m12 * v.z + m.m13) * (1 / m.homogW v),
     (m.m20 * v.x + m.m21 * v.y + m.m22 * v.z + m.m23) * (1 / m.homogW v)⟩

end Matrix4DDefs

/-- Length of a 2D vector, `Vector2D::Length` (`sqrt(x*x + y*y)`). -/
noncomputable def Vector2D.length (v : Vector2D ℝ) : ℝ :=
  Real.sqrt (v.x * v.x + v.y * v.y)

/-- Length of a 3D vector, `Vector3D::Length` (`sqrt(x*x + y*y + z*z)`). -/
noncomputable def Vector3D.length (v : Vector3D ℝ) : ℝ :=
  Real.sqrt (v.x * v.x + v.y * v.y + v.z * v.z)

/-- Normalisation, `Vector3D::Normalize`: returns the zero vector when the
length is exactly zero, otherwise divides each component by the length. -/
noncomputable def Vector3D.normalize (v : Vector3D ℝ) : Vector3D ℝ :=
  if v.length = 0 then ⟨0, 0, 0⟩ else ⟨v.x / v.length, v.y / v.length, v.z / v.length⟩

/-- One power iteration loop of `Matrix3D::CalculateEigenvalues`
(`src/Math/Matrix3D.h` lines 1061-1087), embedded with explicit fuel.
The source runs `for (iter = 0; iter < 30; iter++)`; each pass multiplies
the matrix by the current vector, breaks with eigenvalue 0 if the image's
length drops below 1e-10, renormalises, breaks with the Rayleigh quotient
`v . (M*v)` if the renormalised vector is within 1e-6 of the previous vector
or of its negation, and otherwise replaces `v`; if the pass with
`iter == 29` completes without breaking, the source throws the convergence
error. The call sites pass fuel 30; the second component counts the
multiply-and-renormalise passes executed. On a break the loop returns the
value of `v` at break time (the local `new_v` is discarded), exactly as the
source leaves the mutable `v`. -/
noncomputable def powerLoop (m : Matrix3D ℝ) (v : Vector3D ℝ) :
    Nat → Except MathError (ℝ × Vector3D ℝ) × Nat
  | 0 => (Except.error MathError.convergenceFailure, 0)
  | fuel + 1 =>
    let newV := m.mulVec v
    if newV.length < 1 / 10000000000 then (Except.ok (0, v), 1)
    else
      let newVn := newV.divScalar newV.length
      if (newVn.sub v).length < Constants.EPSILON ∨
         (newVn.add v).length < Constants.EPSILON then
        (Except.ok (v.dot (m.mulVec v), v), 1)
      else
        let r := powerLoop m newVn fuel
        (r.1, r.2 + 1)

/-- Eigenvalue solver `Matrix3D::CalculateEigenvalues` (`src/Math/Matrix3D.h`
lines 1038-1111). The method mutates `*this` during deflation, so the
embedding returns both the eigenvalue vector and the final value of the
receiver. Control flow of the source: throw if not symmetric; seed
`v = (1,1,1).Normalize()`; for `i = 0, 1, 2` run the capped power iteration;
after `i = 0` and `i = 1` deflate `*this = *this - vvT * eigenvalues[i]`
(where `vvT` is the outer product of the break-time `v`), and after `i = 0`
only, reseed `v` with a vector orthogonal to the found eigenvector. (The
locals `a`, `b`, `c` of the source are computed and never used; they are
omitted.) -/
noncomputable def Matrix3D.CalculateEigenvalues (m : Matrix3D ℝ) :
    Except MathError (Vector3D ℝ × Matrix3D ℝ) :=
  if m.IsSymmetric then
    let v0 := (Vector3D.mk (1 : ℝ) 1 1).normalize
    match (powerLoop m v0 30).1 with
    | Except.error e => Except.error e
    | Except.ok (ev0, v) =>
      let vvT0 : Matrix3D ℝ :=
        ⟨v.x * v.x, v.x * v.y, v.x * v.z,
         v.y * v.x, v.y * v.y, v.y * v.z,
         v.z * v.x, v.z * v.y, v.z * v.z⟩
      let m1 := m.sub (vvT0.mulScalar ev0)
      let v1 := if |v.x| > |v.y| then (Vector3D.mk (-v.z) 0 v.x).normalize
                else (Vector3D.mk 0 (-v.z) v.y).normalize
      match (powerLoop m1 v1 30).1 with
      | Except.error e => Except.error e
      | Except.ok (ev1, w) =>
        let vvT1 : Matrix3D ℝ :=
          ⟨w.x * w.x, w.x * w.y, w.x * w.z,
           w.y * w.x, w.y * w.y, w.y * w.z,
           w.z * w.x, w.z * w.y, w.z * w.z⟩
        let m2 := m1.sub (vvT1.mulScalar ev1)
        match (powerLoop m2 w 30).1 with
        | Except.error e => Except.error e
        | Except.ok (ev2, _) => Except.ok (⟨ev0, ev1, ev2⟩, m2)
  else Except.error MathError.notSymmetric

/-- The hierarchical 2D transform, class `Math::Transform2D`
(`src/Math/Transform2D.h` / `.cpp`). Fields in source order: `m_Position`,
`m_Rotation` (radians), `m_Scale`, the mutable cached `m_LocalMatrix`, the
mutable `m_IsDirty` flag, and the non-owning `m_Parent` pointer (embedded as
an optional value, which models the acyclic parent chains the source
supports; a parent cycle is a fatal caller error per the source design). -/
inductive Transform2D : Type where
  | mk : Vector2D ℝ → ℝ → Vector2D ℝ → Matrix3D ℝ → Bool → Option Transform2D →
         Transform2D

/-- Field accessor for `m_Position`. -/
def Transform2D.position : Transform2D → Vector2D ℝ
  | .mk p _ _ _ _ _ => p

/-- Field accessor for `m_Rotation`. -/
def Transform2D.rotation : Transform2D → ℝ
  | .mk _ r _ _ _ _ => r

/-- Field accessor for `m_Scale`. -/
def Transform2D.scale : Transform2D → Vector2D ℝ
  | .mk _ _ s _ _ _ => s

/-- Field accessor for the cached `m_LocalMatrix`. -/
def Transform2D.localMatrix : Transform2D → Matrix3D ℝ
  | .mk _ _ _ m _ _ => m

/-- Field accessor for `m_IsDirty`. -/
def Transform2D.isDirty : Transform2D → Bool
  | .mk _ _ _ _ d _ => d

/-- Field accessor for `m_Parent`. -/
def Transform2D.parent : Transform2D → Option Transform2D
  | .mk _ _ _ _ _ p => p

/-- The parameterised constructor
`Transform2D(position, rotation, scale)`: stores the three TRS fields, sets
`m_IsDirty = true` and `m_Parent = nullptr`; the cached matrix is the
default-constructed `Matrix3D` (identity). -/
def Transform2D.create (position : Vector2D ℝ) (rotation : ℝ)
    (scale : Vector2D ℝ) : Transform2D :=
  .mk position rotation scale ⟨1, 0, 0, 0, 1, 0, 0, 0, 1⟩ true none

/-- The cached-matrix refresh `Transform2D::UpdateMatrix`
(`src/Math/Transform2D.cpp` lines 14-29): when dirty, rebuilds
`m_LocalMatrix` as
`[sx*cos r, -sy*sin r, px; sx*sin r, sy*cos r, py; 0, 0, 1]`
and clears the dirty flag; otherwise leaves the object untouched. The
mutation of the two mutable fields is embedded by returning the updated
object. -/
noncomputable def Transform2D.UpdateMatrix (t : Transform2D) : Transform2D :=
  if t.isDirty then
    .mk t.position t.rotation t.scale
      ⟨t.scale.x * Real.cos t.rotation, -t.scale.y * Real.sin t.rotation, t.position.x,
       t.scale.x * Real.sin t.rotation, t.scale.y * Real.cos t.rotation, t.position.y,
       0, 0, 1⟩
      false t.parent
  else t

/-- Reader `Transform2D::GetLocalMatrix` (`src/Math/Transform2D.cpp` lines
301-304): refreshes the cache if needed and returns it; the pair carries the
returned matrix and the (possibly updated) object state. -/
noncomputable def Transform2D.GetLocalMatrix (t : Transform2D) :
    Matrix3D ℝ × Transform2D :=
  ((t.UpdateMatrix).localMatrix, t.UpdateMatrix)

/-- Reader `Transform2D::GetWorldMatrix` (`src/Math/Transform2D.cpp` lines
306-314): with a parent, `parent.GetWorldMatrix() * GetLocalMatrix()`;
without one, the local matrix. -/
noncomputable def Transform2D.GetWorldMatrix : Transform2D → Matrix3D ℝ
  | .mk p r s m d (some par) =>
      (Transform2D.GetWorldMatrix par).mul
        ((Transform2D.mk p r s m d (some par)).GetLocalMatrix).1
  | .mk p r s m d none => ((Transform2D.mk p r s m d none).GetLocalMatrix).1

/-- Point transform `Transform2D::TransformPoint` (`src/Math/Transform2D.cpp`
lines 189-197): multiplies the world matrix by the homogeneous point. -/
noncomputable def Transform2D.TransformPoint (t : Transform2D)
    (point : Vector2D ℝ) : Vector2D ℝ :=
  ⟨t.GetWorldMatrix.m00 * point.x + t.GetWorldMatrix.m01 * point.y +
     t.GetWorldMatrix.m02,
   t.GetWorldMatrix.m10 * point.x + t.GetWorldMatrix.m11 * point.y +
     t.GetWorldMatrix.m12⟩

/-- Mutator `Transform2D::SetParent` (`src/Math/Transform2D.cpp` lines
136-138): assigns `m_Parent` and nothing else (in particular it does not set
the dirty flag). -/
def Transform2D.SetParent (t : Transform2D) (p : Option Transform2D) :
    Transform2D :=
  .mk t.position t.rotation t.scale t.localMatrix t.isDirty p

/-- First rotation-adjustment loop of `Transform2D::Lerp`
(`src/Math/Transform2D.cpp` line 100):
`while (rotB - rotA > PI) rotA += TAU`. -/
noncomputable def lerpLiftA (rotA rotB : ℝ) : ℝ :=
  if rotB - rotA > Constants.PI then lerpLiftA (rotA + Constants.TAU) rotB
  else rotA
termination_by (⌈(rotB - rotA - Constants.PI) / Constants.TAU⌉).toNat
decreasing_by
  have hTau : (0 : ℝ) < Constants.TAU := by norm_num [Constants.TAU, Constants.PI]
  have hx : (0 : ℝ) < (rotB - rotA - Constants.PI) / Constants.TAU := by
    apply div_pos _ hTau
    linarith
  have hceil : 0 < ⌈(rotB - rotA - Constants.PI) / Constants.TAU⌉ := by
    exact Int.ceil_pos.mpr hx
  have harg : (rotB - (rotA + Constants.TAU) - Constants.PI) / Constants.TAU =
      (rotB - rotA - Constants.PI) / Constants.TAU - 1 := by
    field_simp
    ring
  rw [harg, Int.ceil_sub_one]
  omega

/-- Second rotation-adjustment loop of `Transform2D::Lerp`
(`src/Math/Transform2D.cpp` line 101):
`while (rotA - rotB > PI) rotB += TAU`. -/
noncomputable def lerpLiftB (rotA rotB : ℝ) : ℝ :=
  if rotA - rotB > Constants.PI then lerpLiftB rotA (rotB + Constants.TAU)
  else rotB
termination_by (⌈(rotA - rotB - Constants.PI) / Constants.TAU⌉).toNat
decreasing_by
  have hTau : (0 : ℝ) < Constants.TAU := by norm_num [Constants.TAU, Constants.PI]
  have hx : (0 : ℝ) < (rotA - rotB - Constants.PI) / Constants.TAU := by
    apply div_pos _ hTau
    linarith
  have hceil : 0 < ⌈(rotA - rotB - Constants.PI) / Constants.TAU⌉ := by
    exact Int.ceil_pos.mpr hx
  have harg : (rotA - (rotB + Constants.TAU) - Constants.PI) / Constants.TAU =
      (rotA - rotB - Constants.PI) / Constants.TAU - 1 := by
    field_simp
    ring
  rw [harg, Int.ceil_sub_one]
  omega

/-- Interpolation `Transform2D::Lerp` (`src/Math/Transform2D.cpp` lines
87-107): clamps `t` to `[0,1]`, lerps position and scale componentwise,
adjusts the two rotations by multiples of tau for the shorter angular path,
lerps the adjusted rotations, and builds the result with the parameterised
constructor. -/
noncomputable def Transform2D.Lerp (a b : Transform2D) (t : ℝ) : Transform2D :=
  let tc := max 0 (min 1 t)
  let position := (a.position).add ((b.position).sub (a.position) |>.smul tc)
  let scale := (a.scale).add ((b.scale).sub (a.scale) |>.smul tc)
  let rotA := lerpLiftA a.rotation b.rotation
  let rotB := lerpLiftB rotA b.rotation
  let rotation := rotA + (rotB - rotA) * tc
  Transform2D.create position rotation scale

/-- Equality test `Transform2D::operator==` (`src/Math/Transform2D.cpp`
lines 351-358): position distance, absolute rotation difference and scale
distance all below 1e-6. -/
noncomputable def Transform2D.eq (a b : Transform2D) : Prop :=
  ((a.position).sub (b.position)).length < Constants.EPSILON ∧
  |a.rotation - b.rotation| < Constants.EPSILON ∧
  ((a.scale).sub (b.scale)).length < Constants.EPSILON

/-! ## Claim theorems -/

/-- C1: for every 2x2, 3x3 and 4x4 matrix, `Inverse()` fails with the
singular-matrix error exactly when the determinant is within the type's
threshold of zero (`det == 0` exactly for 2x2, `|det| < 1e-6` for 3x3 and
4x4), and otherwise returns the adjugate divided by the determinant
(equivalently, `Adjoint()` scaled by the reciprocal of the determinant). -/
theorem c1_inverse_is_adjoint_over_det :
    (∀ m : Matrix2D ℚ, m.Inverse =
      if m.Determinant = 0 then Except.error MathError.singularMatrix
      else Except.ok (m.Adjoint.divScalar m.Determinant)) ∧
    (∀ m : Matrix3D ℚ, m.Inverse =
      if |m.Determinant| < Constants.EPSILON then Except.error MathError.singularMatrix
      else Except.ok (m.Adjoint.divScalar m.Determinant)) ∧
    (∀ m : Matrix4D ℚ, m.Inverse =
      if |m.Determinant| < Constants.EPSILON then Except.error MathError.singularMatrix
      else Except.ok (m.Adjoint.mulScalar (1 / m.Determinant))) := by
  refine ⟨fun m => ?_, fun m => ?_, fun m => ?_⟩
  · by_cases h : m.Determinant = 0
    · simp [Matrix2D.Inverse, h]
    · simp [Matrix2D.Inverse, h, Matrix2D.Adjoint, Matrix2D.divScalar]
  · by_cases h : |m.Determinant| < Constants.EPSILON
    · simp [Matrix3D.Inverse, h]
    · simp [Matrix3D.Inverse, h, Matrix3D.divScalar, Matrix3D.mulScalar,
        mul_one_div, div_eq_mul_inv]
  · by_cases h : |m.Determinant| < Constants.EPSILON
    · simp [Matrix4D.Inverse, h]
    · have hne : m.Determinant ≠ 0 := by
        intro h0
        exact h (by rw [h0]; norm_num [Constants.EPSILON])
      simp [Matrix4D.Inverse, h, Matrix4D.divScalar, hne]

/-- C2 counterexample: the claim says scalar division by zero on the 2x2
type fails explicitly, but `Matrix2D::operator/` has no zero-divisor check
at all — on the concrete matrix `[[1,2],[3,4]]` with divisor `0` it
completes normally (no error). -/
theorem c2_counterexample :
    exceptIsOk ((Matrix2D.mk (1 : ℚ) 2 3 4).divScalarE 0) = true := rfl

/-- C2 (amended): scalar division by zero fails explicitly only for the 4x4
type; the 3x3 type silently returns the input matrix unchanged whenever the
divisor's absolute value is below epsilon; and the 2x2 type performs the
division unguarded, never producing an error. -/
theorem c2_scalar_division_by_zero_amended :
    ∀ (m2 : Matrix2D ℚ) (m3 : Matrix3D ℚ) (m4 : Matrix4D ℚ) (s : ℚ),
      m4.divScalar 0 = Except.error MathError.divisionByZero ∧
      (|s| < Constants.EPSILON → m3.divScalar s = m3) ∧
      exceptIsOk (m2.divScalarE s) = true := by
  intro m2 m3 m4 s
  refine ⟨by simp [Matrix4D.divScalar], fun h => by simp [Matrix3D.divScalar, h], rfl⟩

/-- C2 witness: the amended statement instantiated at concrete matrices and
the concrete small divisor `1/2000000`. -/
theorem c2_scalar_division_by_zero_amended_witness :
    |(1 : ℚ) / 2000000| < Constants.EPSILON ∧
    ((Matrix4D.mk (1 : ℚ) 2 3 4 5 6 7 8 9 10 11 12 13 14 15 16).divScalar 0 =
        Except.error MathError.divisionByZero ∧
      (Matrix3D.mk (1 : ℚ) 2 3 4 5 6 7 8 9).divScalar (1 / 2000000) =
        Matrix3D.mk (1 : ℚ) 2 3 4 5 6 7 8 9 ∧
      exceptIsOk ((Matrix2D.mk (1 : ℚ) 2 3 4).divScalarE (1 / 2000000)) = true) := by
  have h := c2_scalar_division_by_zero_amended (Matrix2D.mk (1 : ℚ) 2 3 4)
    (Matrix3D.mk (1 : ℚ) 2 3 4 5 6 7 8 9)
    (Matrix4D.mk (1 : ℚ) 2 3 4 5 6 7 8 9 10 11 12 13 14 15 16) (1 / 2000000)
  have habs : |(1 : ℚ) / 2000000| = 1 / 2000000 := abs_of_pos (by norm_num)
  exact ⟨by rw [habs]; norm_num [Constants.EPSILON],
         h.1, h.2.1 (by rw [Constants.EPSILON, habs]; norm_num), h.2.2⟩

/-- C4: the power-iteration loop used for each of the three eigenvalues
inside `Matrix3D::CalculateEigenvalues` is capped at 30
multiply-and-renormalise passes, and every outcome is either a success or
the convergence-failure error reached exactly when all 30 passes elapse
without meeting the tolerance — so the solver always terminates. -/
theorem c4_power_iteration_capped_at_30 :
    ∀ (m : Matrix3D ℝ) (v : Vector3D ℝ),
      (powerLoop m v 30).2 ≤ 30 ∧
      (((powerLoop m v 30).1 = Except.error MathError.convergenceFailure ∧
          (powerLoop m v 30).2 = 30) ∨
        ∃ r, (powerLoop m v 30).1 = Except.ok r) := by
  intro m v
  have H : ∀ (fuel : Nat) (w : Vector3D ℝ),
      (powerLoop m w fuel).2 ≤ fuel ∧
      (((powerLoop m w fuel).1 = Except.error MathError.convergenceFailure ∧
          (powerLoop m w fuel).2 = fuel) ∨
        ∃ r, (powerLoop m w fuel).1 = Except.ok r) := by
    intro fuel
    induction fuel with
    | zero => intro w; exact ⟨le_refl 0, Or.inl ⟨rfl, rfl⟩⟩
    | succ n ih =>
      intro w
      rw [powerLoop]
      by_cases h1 : ((m.mulVec w).length < 1 / 10000000000)
      · simp only [h1, if_true]
        exact ⟨by omega, Or.inr ⟨(0, w), rfl⟩⟩
      · by_cases h2 :
          ((((m.mulVec w).divScalar (m.mulVec w).length).sub w).length <
              Constants.EPSILON ∨
            ((((m.mulVec w).divScalar (m.mulVec w).length)).add w).length <
              Constants.EPSILON)
        · simp only [h1, h2, if_true, if_false]
          exact ⟨by omega, Or.inr ⟨_, rfl⟩⟩
        · simp only [h1, h2, if_false]
          obtain ⟨hle, hd⟩ := ih ((m.mulVec w).divScalar (m.mulVec w).length)
          refine ⟨by omega, ?_⟩
          rcases hd with ⟨he, hn⟩ | ⟨r, hr⟩
          · exact Or.inl ⟨he, by omega⟩
          · exact Or.inr ⟨r, hr⟩
  exact H 30 v

/-- C8: the code's `Matrix2D::operator*(float)` does not return the
elementwise-scaled 2x2 matrix the claim (and the operator's own
documentation) describe: on `[[1,2],[3,4]] * 2` it returns the 2-vector
`(2,4)` — only the first row, as a `Vector2D` — while the 4x4 scalar
multiplication does follow the standard elementwise formula. -/
theorem c8_matrix2d_scalar_multiply_evaluation :
    (Matrix2D.mk (1 : ℚ) 2 3 4).mulScalar 2 = Vector2D.mk 2 4 ∧
    (Matrix4D.mk (1 : ℚ) 2 3 4 5 6 7 8 9 10 11 12 13 14 15 16).mulScalar 2 =
      Matrix4D.mk 2 4 6 8 10 12 14 16 18 20 22 24 26 28 30 32 := by
  constructor
  · simp [Matrix2D.mulScalar]; norm_num
  · simp [Matrix4D.mulScalar]; norm_num

/-- C9: `Matrix4D::TransformPoint` computes the homogeneous coordinate
`w = m30*x + m31*y + m32*z + m33`; whenever `w` is exactly zero it returns
the zero vector instead of dividing, and otherwise each transformed
component is divided by `w` — the division is always guarded. -/
theorem c9_transform_point_division_guarded :
    ∀ (m : Matrix4D ℚ) (v : Vector3D ℚ),
      (m.homogW v = 0 → m.TransformPoint v = ⟨0, 0, 0⟩) ∧
      (m.homogW v ≠ 0 → m.TransformPoint v =
        ⟨(m.m00 * v.x + m.m01 * v.y + m.m02 * v.z + m.m03) / m.homogW v,
         (m.m10 * v.x + m.m11 * v.y + m.m12 * v.z + m.m13) / m.homogW v,
         (m.m20 * v.x + m.m21 * v.y + m.m22 * v.z + m.m23) / m.homogW v⟩) := by
  intro m v
  constructor
  · intro h
    simp [Matrix4D.TransformPoint, h]
  · intro h
    simp [Matrix4D.TransformPoint, h, mul_one_div, div_eq_mul_inv]

/-- C9 witness: with the zero matrix `w` vanishes for every point and the
guard returns the zero vector; with the identity matrix `w = 1` and the
point comes back unchanged. -/
theorem c9_transform_point_division_guarded_witness :
    ((Matrix4D.mk (0 : ℚ) 0 0 0 0 0 0 0 0 0 0 0 0 0 0 0).homogW ⟨1, 2, 3⟩ = 0 ∧
      (Matrix4D.mk (0 : ℚ) 0 0 0 0 0 0 0 0 0 0 0 0 0 0 0).TransformPoint ⟨1, 2, 3⟩ =
        ⟨0, 0, 0⟩) ∧
    ((Matrix4D.mk (1 : ℚ) 0 0 0 0 1 0 0 0 0 1 0 0 0 0 1).homogW ⟨1, 2, 3⟩ ≠ 0 ∧
      (Matrix4D.mk (1 : ℚ) 0 0 0 0 1 0 0 0 0 1 0 0 0 0 1).TransformPoint ⟨1, 2, 3⟩ =
        ⟨1, 2, 3⟩) := by
  have h0 := c9_transform_point_division_guarded
    (Matrix4D.mk (0 : ℚ) 0 0 0 0 0 0 0 0 0 0 0 0 0 0 0) ⟨1, 2, 3⟩
  have h1 := c9_transform_point_division_guarded
    (Matrix4D.mk (1 : ℚ) 0 0 0 0 1 0 0 0 0 1 0 0 0 0 1) ⟨1, 2, 3⟩
  have hw0 : (Matrix4D.mk (0 : ℚ) 0 0 0 0 0 0 0 0 0 0 0 0 0 0 0).homogW ⟨1, 2, 3⟩ = 0 := by
    norm_num [Matrix4D.homogW]
  have hw1 : (Matrix4D.mk (1 : ℚ) 0 0 0 0 1 0 0 0 0 1 0 0 0 0 1).homogW ⟨1, 2, 3⟩ ≠ 0 := by
    norm_num [Matrix4D.homogW]
  refine ⟨⟨hw0, h0.1 hw0⟩, hw1, ?_⟩
  rw [h1.2 hw1]
  norm_num [Matrix4D.homogW]

/-- C10: `Transform2D::SetParent` changes only the parent pointer: position,
rotation, scale, the cached local matrix and the dirty flag are all
unchanged, so `GetLocalMatrix` returns the same matrix before and after the
call. -/
theorem c10_set_parent_only_changes_parent :
    ∀ (t : Transform2D) (p : Option Transform2D),
      (t.SetParent p).position = t.position ∧
      (t.SetParent p).rotation = t.rotation ∧
      (t.SetParent p).scale = t.scale ∧
      (t.SetParent p).localMatrix = t.localMatrix ∧
      (t.SetParent p).isDirty = t.isDirty ∧
      (t.SetParent p).parent = p ∧
      ((t.SetParent p).GetLocalMatrix).1 = (t.GetLocalMatrix).1 := by
  intro t p
  cases t with
  | mk pos rot sc m d par =>
    refine ⟨rfl, rfl, rfl, rfl, rfl, rfl, ?_⟩
    cases d <;>
      simp [Transform2D.SetParent, Transform2D.GetLocalMatrix,
        Transform2D.UpdateMatrix, Transform2D.position, Transform2D.rotation,
        Transform2D.scale, Transform2D.localMatrix, Transform2D.isDirty,
        Transform2D.parent]

/-- C5: a matrix-dependent reader on a dirty transform recomputes the cached
local matrix as `[sx*cos r, -sy*sin r, px; sx*sin r, sy*cos r, py; 0,0,1]`
from the current TRS fields, clears the dirty flag, and a subsequent reader
returns the same cached matrix with the state unchanged. -/
theorem c5_dirty_reader_recomputes_then_caches :
    ∀ t : Transform2D, t.isDirty = true →
      (t.GetLocalMatrix).1 = Matrix3D.mk
          (t.scale.x * Real.cos t.rotation) (-t.scale.y * Real.sin t.rotation)
          t.position.x
          (t.scale.x * Real.sin t.rotation) (t.scale.y * Real.cos t.rotation)
          t.position.y
          0 0 1 ∧
      ((t.GetLocalMatrix).2).isDirty = false ∧
      ((t.GetLocalMatrix).2).GetLocalMatrix =
        ((t.GetLocalMatrix).1, (t.GetLocalMatrix).2) := by
  intro t h
  cases t with
  | mk pos rot sc m d par =>
    have hd : d = true := h
    subst hd
    refine ⟨rfl, rfl, ?_⟩
    simp [Transform2D.GetLocalMatrix, Transform2D.UpdateMatrix,
      Transform2D.isDirty, Transform2D.position, Transform2D.rotation,
      Transform2D.scale, Transform2D.localMatrix, Transform2D.parent]

/-- C5 witness: a concrete dirty transform with position `(1,2)`, rotation
`0` and scale `(2,3)`; the reader recomputes the cache to
`[[2,0,1],[0,3,2],[0,0,1]]` and clears the flag. -/
theorem c5_dirty_reader_recomputes_then_caches_witness :
    (Transform2D.mk ⟨1, 2⟩ 0 ⟨2, 3⟩ ⟨1, 0, 0, 0, 1, 0, 0, 0, 1⟩ true
        none).isDirty = true ∧
    ((Transform2D.mk ⟨1, 2⟩ 0 ⟨2, 3⟩ ⟨1, 0, 0, 0, 1, 0, 0, 0, 1⟩ true
        none).GetLocalMatrix).1 = Matrix3D.mk 2 0 1 0 3 2 0 0 1 ∧
    (((Transform2D.mk ⟨1, 2⟩ 0 ⟨2, 3⟩ ⟨1, 0, 0, 0, 1, 0, 0, 0, 1⟩ true
        none).GetLocalMatrix).2).isDirty = false := by
  have h := c5_dirty_reader_recomputes_then_caches
    (Transform2D.mk ⟨1, 2⟩ 0 ⟨2, 3⟩ ⟨1, 0, 0, 0, 1, 0, 0, 0, 1⟩ true none) rfl
  refine ⟨rfl, ?_, h.2.1⟩
  rw [h.1]
  simp [Transform2D.scale, Transform2D.rotation, Transform2D.position]

/-- C6: `GetWorldMatrix` returns `parent.GetWorldMatrix() * GetLocalMatrix()`
when a parent exists and the local matrix otherwise; in particular for a
parent at position `(1,0)` with scale `(2,2)` and a child at `(1,0)` with
unit scale, transforming the origin through the child yields `(3,0)`. -/
theorem c6_world_matrix_parent_composition :
    (∀ (pos : Vector2D ℝ) (rot : ℝ) (sc : Vector2D ℝ) (m : Matrix3D ℝ)
        (d : Bool) (p : Transform2D),
      (Transform2D.mk pos rot sc m d (some p)).GetWorldMatrix =
        (p.GetWorldMatrix).mul
          ((Transform2D.mk pos rot sc m d (some p)).GetLocalMatrix).1) ∧
    (∀ (pos : Vector2D ℝ) (rot : ℝ) (sc : Vector2D ℝ) (m : Matrix3D ℝ)
        (d : Bool),
      (Transform2D.mk pos rot sc m d none).GetWorldMatrix =
        ((Transform2D.mk pos rot sc m d none).GetLocalMatrix).1) ∧
    ((Transform2D.create ⟨1, 0⟩ 0 ⟨1, 1⟩).SetParent
        (some (Transform2D.create ⟨1, 0⟩ 0 ⟨2, 2⟩))).TransformPoint ⟨0, 0⟩ =
      ⟨3, 0⟩ := by
  refine ⟨fun pos rot sc m d p => by rw [Transform2D.GetWorldMatrix],
          fun pos rot sc m d => by rw [Transform2D.GetWorldMatrix], ?_⟩
  simp only [Transform2D.create, Transform2D.SetParent, Transform2D.position,
    Transform2D.rotation, Transform2D.scale, Transform2D.localMatrix,
    Transform2D.isDirty, Transform2D.parent, Transform2D.TransformPoint,
    Transform2D.GetWorldMatrix, Transform2D.GetLocalMatrix,
    Transform2D.UpdateMatrix, Matrix3D.mul]
  norm_num [Real.cos_zero, Real.sin_zero]

/-- C7 counterexample: `Lerp(a, b, 0) == a` fails for `a` with rotation `0`
and `b` with rotation `4`: since `4 - 0 > pi`, the shorter-path adjustment
lifts the interpolation start to `tau`, and the result's rotation `tau`
differs from `a`'s rotation `0` by far more than the equality epsilon. -/
theorem c7_counterexample :
    ¬ Transform2D.eq
        (Transform2D.Lerp (Transform2D.create ⟨0, 0⟩ 0 ⟨1, 1⟩)
          (Transform2D.create ⟨0, 0⟩ 4 ⟨1, 1⟩) 0)
        (Transform2D.create ⟨0, 0⟩ 0 ⟨1, 1⟩) := by
  intro h
  have hA : lerpLiftA (0 : ℝ) 4 = 0 + Constants.TAU := by
    rw [lerpLiftA, if_pos (by norm_num [Constants.PI])]
    rw [lerpLiftA, if_neg (by norm_num [Constants.PI, Constants.TAU])]
  have hB : lerpLiftB ((0 : ℝ) + Constants.TAU) 4 = 4 := by
    rw [lerpLiftB, if_neg (by norm_num [Constants.PI, Constants.TAU])]
  simp only [Transform2D.eq, Transform2D.Lerp, Transform2D.create,
    Transform2D.position, Transform2D.rotation, Transform2D.scale] at h
  rw [hA, hB] at h
  obtain ⟨-, hrot, -⟩ := h
  have hc : max (0 : ℝ) (min 1 0) = 0 := by norm_num
  rw [hc] at hrot
  rw [abs_lt] at hrot
  have h2 := hrot.2
  norm_num [Constants.TAU, Constants.PI, Constants.EPSILON] at h2

/-- C7 (amended): the boundary identities `Lerp(a,b,0) == a` and
`Lerp(a,b,1) == b` hold whenever the two rotations differ by at most pi
(so that no shorter-path adjustment fires); when they differ by more, the
adjusted endpoint is shifted by tau and the identity fails. -/
theorem c7_lerp_boundary_amended :
    ∀ a b : Transform2D, |a.rotation - b.rotation| ≤ Constants.PI →
      Transform2D.eq (Transform2D.Lerp a b 0) a ∧
      Transform2D.eq (Transform2D.Lerp a b 1) b := by
  intro a b h
  have habs := abs_le.mp h
  have hA : lerpLiftA a.rotation b.rotation = a.rotation := by
    rw [lerpLiftA, if_neg]
    push_neg
    linarith [habs.1]
  have hB : lerpLiftB a.rotation b.rotation = b.rotation := by
    rw [lerpLiftB, if_neg]
    push_neg
    linarith [habs.2]
  have hc0 : max (0 : ℝ) (min 1 0) = 0 := by norm_num
  have hc1 : max (0 : ℝ) (min 1 1) = 1 := by norm_num
  have hres0 : Transform2D.Lerp a b 0 =
      Transform2D.create a.position a.rotation a.scale := by
    simp only [Transform2D.Lerp, hA, hB, hc0]
    simp [Vector2D.add, Vector2D.sub, Vector2D.smul]
  have hres1 : Transform2D.Lerp a b 1 =
      Transform2D.create b.position b.rotation b.scale := by
    simp only [Transform2D.Lerp, hA, hB, hc1]
    simp [Vector2D.add, Vector2D.sub, Vector2D.smul, Transform2D.create]
  rw [hres0, hres1]
  constructor <;>
    simp [Transform2D.eq, Transform2D.create, Transform2D.position,
      Transform2D.rotation, Transform2D.scale, Vector2D.sub, Vector2D.length,
      Constants.EPSILON, Real.sqrt_zero]

/-- C7 witness: the amended boundary identities at concrete transforms with
rotations `0` and `1` (which differ by less than pi). -/
theorem c7_lerp_boundary_amended_witness :
    |(Transform2D.create (⟨1, 0⟩ : Vector2D ℝ) 0 ⟨1, 1⟩).rotation -
        (Transform2D.create (⟨0, 1⟩ : Vector2D ℝ) 1 ⟨2, 2⟩).rotation| ≤
      Constants.PI ∧
    (Transform2D.eq
        (Transform2D.Lerp (Transform2D.create ⟨1, 0⟩ 0 ⟨1, 1⟩)
          (Transform2D.create ⟨0, 1⟩ 1 ⟨2, 2⟩) 0)
        (Transform2D.create ⟨1, 0⟩ 0 ⟨1, 1⟩) ∧
      Transform2D.eq
        (Transform2D.Lerp (Transform2D.create ⟨1, 0⟩ 0 ⟨1, 1⟩)
          (Transform2D.create ⟨0, 1⟩ 1 ⟨2, 2⟩) 1)
        (Transform2D.create ⟨0, 1⟩ 1 ⟨2, 2⟩)) := by
  have hyp : |(Transform2D.create (⟨1, 0⟩ : Vector2D ℝ) 0 ⟨1, 1⟩).rotation -
      (Transform2D.create (⟨0, 1⟩ : Vector2D ℝ) 1 ⟨2, 2⟩).rotation| ≤
        Constants.PI := by
    simp only [Transform2D.create, Transform2D.rotation]
    rw [show (0 : ℝ) - 1 = -1 by norm_num, abs_neg, abs_one]
    norm_num [Constants.PI]
  exact ⟨hyp, c7_lerp_boundary_amended _ _ hyp⟩

/-- The all-ones symmetric 3x3 matrix, used to exercise the eigenvalue
solver on a concrete input. -/
def onesM : Matrix3D ℝ := ⟨1, 1, 1, 1, 1, 1, 1, 1, 1⟩

lemma sqrt3_mul_self : Real.sqrt 3 * Real.sqrt 3 = 3 :=
  Real.mul_self_sqrt (by norm_num)

lemma sqrt3_ne : Real.sqrt 3 ≠ 0 :=
  ne_of_gt (Real.sqrt_pos.mpr (by norm_num))

lemma normalize_ones : (Vector3D.mk (1 : ℝ) 1 1).normalize =
    ⟨1 / Real.sqrt 3, 1 / Real.sqrt 3, 1 / Real.sqrt 3⟩ := by
  have hlen : (Vector3D.mk (1 : ℝ) 1 1).length = Real.sqrt 3 := by
    unfold Vector3D.length
    norm_num
  unfold Vector3D.normalize
  rw [hlen, if_neg sqrt3_ne]

lemma ones_mulVec : onesM.mulVec ⟨1 / Real.sqrt 3, 1 / Real.sqrt 3, 1 / Real.sqrt 3⟩ =
    ⟨Real.sqrt 3, Real.sqrt 3, Real.sqrt 3⟩ := by
  unfold onesM Matrix3D.mulVec
  have h : 1 / Real.sqrt 3 + 1 / Real.sqrt 3 + 1 / Real.sqrt 3 = Real.sqrt 3 := by
    field_simp
    linarith [sqrt3_mul_self]
  simp only [one_mul]
  rw [h]

lemma sqrt3_vec_length :
    (Vector3D.mk (Real.sqrt 3) (Real.sqrt 3) (Real.sqrt 3)).length = 3 := by
  unfold Vector3D.length
  rw [sqrt3_mul_self]
  rw [show (3 : ℝ) + 3 + 3 = 9 by norm_num, show (9 : ℝ) = 3 ^ 2 by norm_num]
  exact Real.sqrt_sq (by norm_num)

lemma sqrt3_vec_div :
    (Vector3D.mk (Real.sqrt 3) (Real.sqrt 3) (Real.sqrt 3)).divScalar 3 =
      Vector3D.mk (1 / Real.sqrt 3) (1 / Real.sqrt 3) (1 / Real.sqrt 3) := by
  unfold Vector3D.divScalar
  have h : Real.sqrt 3 / 3 = 1 / Real.sqrt 3 := by
    rw [div_eq_div_iff (by norm_num) sqrt3_ne, sqrt3_mul_self]
    norm_num
  rw [h]

lemma zero_vec_length : (Vector3D.mk (0 : ℝ) 0 0).length = 0 := by
  unfold Vector3D.length
  norm_num

lemma invsqrt3_self_sub :
    (Vector3D.mk (1 / Real.sqrt 3) (1 / Real.sqrt 3) (1 / Real.sqrt 3)).sub
      ⟨1 / Real.sqrt 3, 1 / Real.sqrt 3, 1 / Real.sqrt 3⟩ = ⟨0, 0, 0⟩ := by
  unfold Vector3D.sub
  norm_num

lemma invsqrt3_dot :
    Vector3D.dot ⟨1 / Real.sqrt 3, 1 / Real.sqrt 3, 1 / Real.sqrt 3⟩
      (Vector3D.mk (Real.sqrt 3) (Real.sqrt 3) (Real.sqrt 3)) = 3 := by
  unfold Vector3D.dot
  rw [one_div, inv_mul_cancel₀ sqrt3_ne]
  norm_num

lemma loop_ones :
    powerLoop onesM ⟨1 / Real.sqrt 3, 1 / Real.sqrt 3, 1 / Real.sqrt 3⟩ 30 =
      (Except.ok ((3 : ℝ), ⟨1 / Real.sqrt 3, 1 / Real.sqrt 3, 1 / Real.sqrt 3⟩), 1) := by
  show powerLoop onesM ⟨1 / Real.sqrt 3, 1 / Real.sqrt 3, 1 / Real.sqrt 3⟩ (29 + 1) = _
  rw [powerLoop]
  simp only [ones_mulVec, sqrt3_vec_length, sqrt3_vec_div]
  rw [if_neg (by norm_num)]
  rw [if_pos (Or.inl (by rw [invsqrt3_self_sub, zero_vec_length]
                         norm_num [Constants.EPSILON]))]
  rw [invsqrt3_dot]

lemma loop_zeroMat (v : Vector3D ℝ) (fuel : Nat) :
    powerLoop Matrix3D.zeroMat v (fuel + 1) = (Except.ok ((0 : ℝ), v), 1) := by
  rw [powerLoop]
  have hmv : Matrix3D.zeroMat.mulVec v = ⟨0, 0, 0⟩ := by
    unfold Matrix3D.zeroMat Matrix3D.mulVec
    norm_num
  simp only [hmv, zero_vec_length]
  rw [if_pos (by norm_num)]

lemma matrix3_sub_smul_zero (a b : Matrix3D ℝ) : a.sub (b.mulScalar 0) = a := by
  unfold Matrix3D.sub Matrix3D.mulScalar
  simp

lemma ones_deflated :
    onesM.sub ((Matrix3D.mk
        ((1 / Real.sqrt 3) * (1 / Real.sqrt 3)) ((1 / Real.sqrt 3) * (1 / Real.sqrt 3))
        ((1 / Real.sqrt 3) * (1 / Real.sqrt 3)) ((1 / Real.sqrt 3) * (1 / Real.sqrt 3))
        ((1 / Real.sqrt 3) * (1 / Real.sqrt 3)) ((1 / Real.sqrt 3) * (1 / Real.sqrt 3))
        ((1 / Real.sqrt 3) * (1 / Real.sqrt 3)) ((1 / Real.sqrt 3) * (1 / Real.sqrt 3))
        ((1 / Real.sqrt 3) * (1 / Real.sqrt 3))).mulScalar 3) = Matrix3D.zeroMat := by
  have h : (1 / Real.sqrt 3) * (1 / Real.sqrt 3) * 3 = 1 := by
    rw [div_mul_div_comm, sqrt3_mul_self]
    norm_num
  unfold onesM Matrix3D.sub Matrix3D.mulScalar Matrix3D.zeroMat
  simp only [h]
  norm_num

lemma calcEigen_ones :
    Matrix3D.CalculateEigenvalues onesM =
      Except.ok (⟨3, 0, 0⟩, Matrix3D.zeroMat) := by
  have hsym : onesM.IsSymmetric := by
    unfold onesM Matrix3D.IsSymmetric
    norm_num [Constants.EPSILON]
  unfold Matrix3D.CalculateEigenvalues
  rw [if_pos hsym]
  simp only [normalize_ones, loop_ones, ones_deflated, matrix3_sub_smul_zero,
    loop_zeroMat, gt_iff_lt, lt_self_iff_false, if_false]

/-- C3 counterexample: the claim (the caller-visible matrix holds its
original element values after `CalculateEigenvalues` returns) is false at
the all-ones symmetric matrix — the call succeeds but the receiver ends
as the zero matrix, which differs from the original. -/
theorem c3_counterexample :
    (Matrix3D.CalculateEigenvalues onesM).map Prod.snd =
        Except.ok Matrix3D.zeroMat ∧
      Matrix3D.zeroMat ≠ onesM := by
  constructor
  · rw [calcEigen_ones]
    rfl
  · intro h
    have h00 := congrArg Matrix3D.m00 h
    unfold Matrix3D.zeroMat onesM at h00
    norm_num at h00

/-- C3 (amended): `Matrix3D::CalculateEigenvalues` operates on the receiver
itself, not on an owned copy: the deflation steps subtract
`eigenvalue * (v v^T)` from the caller-visible matrix in place, so after a
successful call the matrix in general no longer holds its original values —
on the all-ones symmetric matrix the call succeeds with eigenvalues
`(3, 0, 0)` and leaves the receiver equal to the zero matrix. -/
theorem c3_eigen_solver_mutates_receiver :
    Matrix3D.CalculateEigenvalues onesM =
      Except.ok (⟨3, 0, 0⟩, Matrix3D.zeroMat) :=
  calcEigen_ones

end Math
